import Mathlib

/-!
# Verification of the audio-mixer routing and volume-control engine

A shallow embedding of `src/src-tauri/src/main.rs` (the Tauri backend of the
`audio-mixer` application) together with proofs of the specification's
testable properties.

Modelling conventions:

* Rust `HashMap` values are embedded as association lists with `lookupA` /
  `insertA` / `eraseA` mirroring `HashMap::get` / `insert` / `remove`
  (first-binding semantics; real hash maps never hold duplicate keys, which
  is expressed where needed by the decidable `KeysNodup` predicate).
* `f32` volumes are embedded as rationals (`ℚ`); `f32::clamp(0.0, 1.0)` on a
  non-NaN input is `rustClamp`.
* Calls into the Windows audio subsystem (COM/WASAPI) are external to the
  repository.  Their outcomes are supplied by an `OsEnv` record: every field
  corresponds to one OS query performed by the source, carrying the already
  formatted error message on failure.  Functions that bracket their work in
  `CoInitializeEx` / `CoUninitialize` additionally return the number of
  `CoUninitialize` calls they issue, so that the resource bracketing can be
  stated and checked.
* `serde_json` (an external dependency) is modelled at the document level:
  `save_state_snapshot` produces the `PersistedState` document and
  `load_state` consumes an optional raw read plus a parse function; the
  library's round-trip guarantee is represented by instantiating the parse
  with `some`.
* pids, device counts and indices are `Nat` / `Int` (with the `i32` range
  check of `str::parse::<i32>` made explicit where the source performs it).
-/

namespace AudioMixer

/-! ## Generic association-list maps (embedding of `HashMap`) -/

/-- First-binding lookup, mirroring `HashMap::get`. -/
def lookupA {κ ν : Type} [DecidableEq κ] (m : List (κ × ν)) (k : κ) : Option ν :=
  match m with
  | [] => none
  | (k', v) :: rest => if k' = k then some v else lookupA rest k

/-- Insert-or-replace, mirroring `HashMap::insert`. -/
def insertA {κ ν : Type} [DecidableEq κ] (k : κ) (v : ν) : List (κ × ν) → List (κ × ν)
  | [] => [(k, v)]
  | (k', v') :: rest => if k' = k then (k, v) :: rest else (k', v') :: insertA k v rest

/-- Remove the binding for `k`, mirroring `HashMap::remove`. -/
def eraseA {κ ν : Type} [DecidableEq κ] (k : κ) : List (κ × ν) → List (κ × ν)
  | [] => []
  | (k', v') :: rest => if k' = k then rest else (k', v') :: eraseA k rest

/-- The keys of the association list are pairwise distinct (always true of a
real `HashMap`). -/
def KeysNodup {κ ν : Type} (m : List (κ × ν)) : Prop :=
  (m.map Prod.fst).Nodup

instance {κ ν : Type} [DecidableEq κ] (m : List (κ × ν)) : Decidable (KeysNodup m) := by
  unfold KeysNodup; infer_instance

@[simp] theorem lookupA_nil {κ ν : Type} [DecidableEq κ] (k : κ) :
    lookupA ([] : List (κ × ν)) k = none := rfl

@[simp] theorem lookupA_cons {κ ν : Type} [DecidableEq κ] (k k' : κ) (v : ν) (m : List (κ × ν)) :
    lookupA ((k', v) :: m) k = if k' = k then some v else lookupA m k := rfl

theorem lookupA_insertA_self {κ ν : Type} [DecidableEq κ] (k : κ) (v : ν) (m : List (κ × ν)) :
    lookupA (insertA k v m) k = some v := by
  induction m with
  | nil => simp [insertA, lookupA]
  | cons hd tl ih =>
    obtain ⟨k', v'⟩ := hd
    by_cases h : k' = k <;> simp [insertA, lookupA, h, ih]

theorem lookupA_insertA_ne {κ ν : Type} [DecidableEq κ] {k k' : κ} (v : ν) (m : List (κ × ν))
    (h : k' ≠ k) : lookupA (insertA k v m) k' = lookupA m k' := by
  induction m with
  | nil => simp [insertA, lookupA, Ne.symm h]
  | cons hd tl ih =>
    obtain ⟨k₀, v₀⟩ := hd
    by_cases h₀ : k₀ = k
    · subst h₀
      simp [insertA, lookupA, Ne.symm h]
    · simp [insertA, lookupA, h₀, ih]

theorem eraseA_of_lookupA_none {κ ν : Type} [DecidableEq κ] {k : κ} {m : List (κ × ν)}
    (h : lookupA m k = none) : eraseA k m = m := by
  induction m with
  | nil => rfl
  | cons hd tl ih =>
    obtain ⟨k', v'⟩ := hd
    by_cases hk : k' = k
    · simp [lookupA, hk] at h
    · simp only [lookupA, if_neg hk] at h
      simp [eraseA, hk, ih h]

theorem lookupA_none_of_not_mem_keys {κ ν : Type} [DecidableEq κ] {k : κ} {m : List (κ × ν)}
    (h : k ∉ m.map Prod.fst) : lookupA m k = none := by
  induction m with
  | nil => rfl
  | cons hd tl ih =>
    obtain ⟨k', v'⟩ := hd
    simp only [List.map_cons, List.mem_cons, not_or] at h
    simp [lookupA, Ne.symm h.1, ih h.2]

theorem keys_insertA_subset {κ ν : Type} [DecidableEq κ] {k x : κ} (v : ν) (m : List (κ × ν))
    (hx : x ∈ (insertA k v m).map Prod.fst) : x = k ∨ x ∈ m.map Prod.fst := by
  induction m with
  | nil =>
    simp only [insertA, List.map_cons, List.map_nil, List.mem_cons, List.not_mem_nil,
      or_false] at hx
    exact Or.inl hx
  | cons hd tl ih =>
    obtain ⟨k₀, v₀⟩ := hd
    simp only [List.map_cons, List.mem_cons]
    by_cases h₀ : k₀ = k
    · simp only [insertA, if_pos h₀, List.map_cons, List.mem_cons] at hx
      rcases hx with h1 | h1
      · exact Or.inl h1
      · exact Or.inr (Or.inr h1)
    · simp only [insertA, if_neg h₀, List.map_cons, List.mem_cons] at hx
      rcases hx with h1 | h1
      · exact Or.inr (Or.inl h1)
      · rcases ih h1 with h2 | h2
        · exact Or.inl h2
        · exact Or.inr (Or.inr h2)

theorem keysNodup_insertA {κ ν : Type} [DecidableEq κ] (k : κ) (v : ν) {m : List (κ × ν)}
    (h : KeysNodup m) : KeysNodup (insertA k v m) := by
  induction m with
  | nil => simp [insertA, KeysNodup]
  | cons hd tl ih =>
    obtain ⟨k', v'⟩ := hd
    unfold KeysNodup at h ⊢
    simp only [List.map_cons, List.nodup_cons] at h
    by_cases hk : k' = k
    · subst hk
      simpa [insertA] using h
    · have htl := ih h.2
      simp only [insertA, if_neg hk, List.map_cons, List.nodup_cons]
      refine ⟨?_, htl⟩
      intro hmem
      rcases keys_insertA_subset v tl hmem with h1 | h1
      · exact hk h1
      · exact h.1 h1

theorem lookupA_eraseA_self {κ ν : Type} [DecidableEq κ] {k : κ} {m : List (κ × ν)}
    (h : KeysNodup m) : lookupA (eraseA k m) k = none := by
  induction m with
  | nil => rfl
  | cons hd tl ih =>
    obtain ⟨k', v'⟩ := hd
    unfold KeysNodup at h
    simp only [List.map_cons, List.nodup_cons] at h
    by_cases hk : k' = k
    · subst hk
      simp only [eraseA, if_pos rfl]
      exact lookupA_none_of_not_mem_keys h.1
    · simp [eraseA, hk, lookupA, ih h.2]

/-! ## Characters, digits and strings

The source manipulates Rust `String`s (`split('#')`, `parse::<i32>()`,
`contains`, `format!`).  These helpers embed exactly the operations used,
written by structural recursion so that they evaluate inside the kernel. -/

/-- Decimal digits of `n`, most significant first (`fuel ≥ 1` suffices for
`n < 10^fuel`; callers pass `n + 1`, which always suffices). -/
def natToCharsAux : Nat → Nat → List Char
  | 0, _ => []
  | fuel + 1, n =>
    if n < 10 then [Char.ofNat (48 + n)]
    else natToCharsAux fuel (n / 10) ++ [Char.ofNat (48 + n % 10)]

/-- Decimal rendering of a natural number (embedding of Rust's `{}` /
`Display` formatting of unsigned integers). -/
def natToString (n : Nat) : String :=
  ⟨natToCharsAux (n + 1) n⟩

/-- Value of an ASCII decimal digit. -/
def digitVal? (c : Char) : Option Nat :=
  if 48 ≤ c.toNat ∧ c.toNat ≤ 57 then some (c.toNat - 48) else none

def parseDigitsAux : List Char → Nat → Option Nat
  | [], acc => some acc
  | c :: rest, acc =>
    match digitVal? c with
    | none => none
    | some d => parseDigitsAux rest (acc * 10 + d)

/-- All-digit parse of a non-empty digit string. -/
def parseDigits : List Char → Option Nat
  | [] => none
  | c :: rest => parseDigitsAux (c :: rest) 0

/-- Embedding of Rust `str::parse::<i32>()`: optional sign, at least one
digit, and the `i32` range check. -/
def parseI32 : List Char → Option Int
  | '+' :: rest =>
    (parseDigits rest).bind fun n => if n ≤ 2147483647 then some (n : Int) else none
  | '-' :: rest =>
    (parseDigits rest).bind fun n => if n ≤ 2147483648 then some (-(n : Int)) else none
  | cs =>
    (parseDigits cs).bind fun n => if n ≤ 2147483647 then some (n : Int) else none

/-- Embedding of Rust `str::split(c)` (on the character list of the string). -/
def splitOnChar (c : Char) : List Char → List (List Char)
  | [] => [[]]
  | x :: xs =>
    let rest := splitOnChar c xs
    if x == c then [] :: rest
    else
      match rest with
      | [] => [[x]]
      | r :: rs => (x :: r) :: rs

/-- `needle` (first argument) occurs at the start of `hay` (second argument). -/
def listStartsWith : List Char → List Char → Bool
  | [], _ => true
  | _ :: _, [] => false
  | a :: as, b :: bs => a == b && listStartsWith as bs

/-- `needle` occurs somewhere inside `hay`: embedding of Rust
`str::contains` for string needles. -/
def listContains (needle : List Char) : List Char → Bool
  | [] => listStartsWith needle []
  | h :: t => listStartsWith needle (h :: t) || listContains needle t

/-- Embedding of Rust `str::contains(&str)`. -/
def strContains (hay needle : String) : Bool :=
  listContains needle.data hay.data

/-! ## Data model (source: `main.rs` lines 17-38, 90-133, 478-485) -/

/-- `enum DeviceKind { Input, Output }`. -/
inductive DeviceKind where
  | Input
  | Output
deriving DecidableEq

/-- Rust's derived `Debug` rendering of a `DeviceKind` variant, as produced
by the `{:?}` format specifier in the device-id `format!`. -/
def DeviceKind.debugStr : DeviceKind → String
  | .Input => "Input"
  | .Output => "Output"

/-- `struct DeviceInfo { id, name, kind, is_default, backend }`. -/
structure DeviceInfo where
  id : String
  name : String
  kind : DeviceKind
  is_default : Bool
  backend : String
deriving DecidableEq

/-- `enum StreamId { Game, Voice, Music }`. -/
inductive StreamId where
  | Game
  | Voice
  | Music
deriving DecidableEq

/-- `type Routes = HashMap<StreamId, Option<String>>`. -/
def Routes : Type := List (StreamId × Option String)

/-- `struct MixerState { routes, volumes, app_categories }` — the single
mutex-guarded logical state.  `volumes : HashMap<StreamId, f32>` and
`app_categories : HashMap<u32, StreamId>`. -/
structure MixerState where
  routes : List (StreamId × Option String)
  volumes : List (StreamId × ℚ)
  app_categories : List (Nat × StreamId)
deriving DecidableEq

/-- `#[derive(Default)]` for `MixerState`: all three maps empty. -/
def MixerState.empty : MixerState :=
  { routes := [], volumes := [], app_categories := [] }

/-- `struct PersistedState { routes, volumes, app_categories }` — the JSON
document written to `state.json`, modelled at the document (parsed-value)
level. -/
structure PersistedState where
  routes : List (StreamId × Option String)
  volumes : List (StreamId × ℚ)
  app_categories : List (Nat × StreamId)
deriving DecidableEq

/-- `struct AppSession { pid, name, process_name, volume, muted }`. -/
structure AppSession where
  pid : Nat
  name : String
  process_name : String
  volume : ℚ
  muted : Bool
deriving DecidableEq

/-- `f32::clamp(0.0, 1.0)` on a non-NaN input (`volume.clamp(0.0, 1.0)` in
the source). -/
def rustClamp (v : ℚ) : ℚ :=
  if v < 0 then 0 else if v > 1 then 1 else v

/-! ## Persistence (source lines 97-124)

`state_file_path` / `std::fs` / `serde_json` are external to the engine; the
state file is modelled by its parsed document.  `load_state` takes the raw
read outcome (`none` = `std::fs::read` failed, i.e. the file is absent or
unreadable) and the parse outcome of `serde_json::from_slice` on the raw
contents (`none` = corrupt contents). -/

/-- Embedding of `load_state` (lines 105-113): a successfully read and
parsed document yields its logical state; any failure yields
`MixerState::default()`. -/
def load_state {α : Type} (readResult : Option α) (parse : α → Option PersistedState) :
    MixerState :=
  match readResult with
  | some data =>
    match parse data with
    | some p => { routes := p.routes, volumes := p.volumes, app_categories := p.app_categories }
    | none => MixerState.empty
  | none => MixerState.empty

/-- Embedding of `save_state_snapshot` (lines 115-124): clone the three maps
out of the locked state and write them as one `PersistedState` document. -/
def save_state_snapshot (s : MixerState) : PersistedState :=
  { routes := s.routes, volumes := s.volumes, app_categories := s.app_categories }

/-! ## Device catalog (source lines 40-87, `list_audio_devices`) -/

/-- One device as reported by the cpal backend: `name()` may fail (`none`),
and output capability is probed via `supported_output_configs()`. -/
structure CpalDevice where
  name : Option String
  is_output : Bool

/-- The enumeration loop of `list_audio_devices`, carrying the `seen`
counter map keyed by `(kind, name)`. -/
def list_audio_devices_loop (defaultOutputName : String)
    (seen : List ((DeviceKind × String) × Nat)) : List CpalDevice → List DeviceInfo
  | [] => []
  | dev :: rest =>
    let name := dev.name.getD "Unbekannt"
    let kind := if dev.is_output then DeviceKind.Output else DeviceKind.Input
    let is_default := dev.is_output && name == defaultOutputName
    let key := (kind, name)
    let idx :=
      match lookupA seen key with
      | some n => n + 1
      | none => 0
    let id := name ++ "::" ++ kind.debugStr ++ "#" ++ natToString idx
    { id := id, name := name, kind := kind, is_default := is_default, backend := "WASAPI" } ::
      list_audio_devices_loop defaultOutputName (insertA key idx seen) rest

/-- Embedding of the `list_audio_devices` command: ids are
`"<name>::<kind:?>#<n>"` where `n` counts previous devices with the same
`(kind, name)`. -/
def list_audio_devices (defaultOutputName : String) (devices : List CpalDevice) :
    List DeviceInfo :=
  list_audio_devices_loop defaultOutputName [] devices

/-! ## The WASAPI environment

Every COM/WASAPI query the source performs is a field of `OsEnv`.  Failing
queries carry the message already formatted (the source formats each with
`format!("... failed: {e}")`; the exact wrapper text does not matter to any
claim, only which code path produced the error).  One `OsEnv` describes the
OS for the duration of one command (the source re-enumerates on every call
but no claim depends on the OS changing mid-call). -/

/-- An `IMMDevice` handle from `EnumAudioEndpoints(eRender, DEVICE_STATE_ACTIVE)`;
`tag` distinguishes physically distinct endpoints that share a name. -/
structure MMDev where
  name : String
  tag : Nat
deriving DecidableEq

/-- One audio session as seen through `IAudioSessionControl` and its casts.
Each field is the outcome of one (composite) query the source performs:

* `pidQ`    — `GetSession` + cast to `IAudioSessionControl2` + `GetProcessId`;
* `volQ`    — cast to `ISimpleAudioVolume` + `GetMasterVolume`;
* `muteQ`   — `GetMute`;
* `setVolQ` — cast + `SetMasterVolume(v)`, as a function of the value set;
* `disconnectQ` — the mute-toggle cycle of `try_disconnect_session`. -/
structure SessionProbe where
  pidQ : Except String Nat
  volQ : Except String ℚ
  muteQ : Except String Bool
  setVolQ : ℚ → Except String Unit
  disconnectQ : Except String Unit

/-- Outcomes of the OS calls made by one command invocation. -/
structure OsEnv where
  /-- did `CoInitializeEx` return a success `HRESULT`? -/
  coInitOk : Bool
  /-- `CoCreateInstance(&MMDeviceEnumerator, ..)`: `some msg` = failure. -/
  createEnum : Option String
  /-- `GetDefaultAudioEndpoint(eRender, eMultimedia)`. -/
  defaultDevice : Except String MMDev
  /-- `EnumAudioEndpoints(eRender, DEVICE_STATE_ACTIVE)` + `GetCount` +
  per-index `Item` (the active render endpoints, in enumeration order). -/
  renderDevices : Except String (List MMDev)
  /-- `get_device_endpoint_id`: `GetId` + to-string conversion. -/
  endpointId : MMDev → Except String String
  /-- `Activate::<IAudioSessionManager2>` + `GetSessionEnumerator` +
  `GetCount` for one device: its sessions, in enumeration order. -/
  sessions : MMDev → Except String (List SessionProbe)

/-! ## Device resolution for routing (source lines 377-419) -/

/-- The name-matching fallback loop of `find_device_by_id`: the candidate
"name" for device `di` is the placeholder `"Device_<di>"` (see the
`get_device_name` stub), matched as a substring of the requested id. -/
def find_device_by_id_fallback (device_id : String) : List MMDev → Nat → Except String MMDev
  | [], _ => .error ("Device not found: " ++ device_id)
  | d :: rest, di =>
    let device_name := "Device_" ++ natToString di
    if strContains device_id device_name then .ok d
    else find_device_by_id_fallback device_id rest (di + 1)

/-- Embedding of `find_device_by_id`, given the successfully enumerated
render-device collection.  The source (1) takes the substring after the last
`'#'` of the id, parses it as an `i32` and, when it is in `[0, dev_count)`,
returns the device **at that position of the collection**; otherwise (2) it
scans the collection comparing the id against the placeholder names
`"Device_<i>"` (the real device name is never read), and finally reports
`"Device not found: <id>"`. -/
def find_device_by_id (devices : List MMDev) (device_id : String) : Except String MMDev :=
  let fromIndex : Option MMDev :=
    match (splitOnChar '#' device_id.data).getLast? with
    | none => none
    | some index_part =>
      match parseI32 index_part with
      | none => none
      | some target_index =>
        if 0 ≤ target_index ∧ target_index < (devices.length : Int) then
          devices.get? target_index.toNat
        else none
  match fromIndex with
  | some d => .ok d
  | none => find_device_by_id_fallback device_id devices 0

/-! ## Device router (source lines 170-476) -/

/-- The target-device resolution step of `route_app_to_device` (lines
180-188): an explicit id goes through `find_device_by_id` on the enumerated
render endpoints, `None` goes to `GetDefaultAudioEndpoint`. -/
def resolve_target_device (env : OsEnv) (device_id : Option String) : Except String MMDev :=
  match device_id with
  | some id =>
    match env.renderDevices with
    | .error e => .error e
    | .ok devs => find_device_by_id devs id
  | none => env.defaultDevice

/-- Session scan of one device in `find_and_log_app_session`: `some r` =
the loop decides (error, or found the pid), `none` = keep searching. -/
def find_session_in (pid : Nat) : List SessionProbe → Option (Except String Bool)
  | [] => none
  | probe :: rest =>
    match probe.pidQ with
    | .error e => some (.error e)
    | .ok p => if p = pid then some (.ok true) else find_session_in pid rest

/-- Device scan of `find_and_log_app_session` (lines 428-476). -/
def find_session_devs (env : OsEnv) (pid : Nat) : List MMDev → Except String Bool
  | [] => .ok false
  | d :: rest =>
    match env.sessions d with
    | .error e => .error e
    | .ok probes =>
      match find_session_in pid probes with
      | some r => r
      | none => find_session_devs env pid rest

/-- Embedding of `find_and_log_app_session`: `Ok true` on the first session
whose pid matches, `Ok false` when no device has one, error when a
query fails. -/
def find_and_log_app_session (env : OsEnv) (pid : Nat) : Except String Bool :=
  match env.renderDevices with
  | .error e => .error e
  | .ok devs => find_session_devs env pid devs

/-- Embedding of `route_app_using_policy` (lines 248-262): a permanent stub
that always reports unavailable, triggering the fallback. -/
def route_app_using_policy (_pid : Nat) (_device_endpoint_id : String) : Except String Unit :=
  .error "Policy routing not implemented - using fallback"

/-- Embedding of `try_disconnect_session` (lines 343-374): the cast /
`GetMasterVolume` / `SetMute(true)` / sleep / `SetMute(false)` cycle,
summarized by the probe's `disconnectQ` outcome. -/
def try_disconnect_session (probe : SessionProbe) : Except String Unit :=
  probe.disconnectQ

/-- Session scan of `try_restart_app_audio_sessions`: every session's pid is
queried (failures propagate); on a match the disconnect outcome is only
logged, never propagated, and the scan continues. -/
def restart_sessions_in (pid : Nat) : List SessionProbe → Except String Unit
  | [] => .ok ()
  | probe :: rest =>
    match probe.pidQ with
    | .error e => .error e
    | .ok p =>
      if p = pid then
        match try_disconnect_session probe with
        | .ok _ => restart_sessions_in pid rest
        | .error _ => restart_sessions_in pid rest
      else restart_sessions_in pid rest

/-- Device scan of `try_restart_app_audio_sessions`. -/
def restart_sessions_devs (env : OsEnv) (pid : Nat) : List MMDev → Except String Unit
  | [] => .ok ()
  | d :: rest =>
    match env.sessions d with
    | .error e => .error e
    | .ok probes =>
      match restart_sessions_in pid probes with
      | .error e => .error e
      | .ok _ => restart_sessions_devs env pid rest

/-- Embedding of `try_restart_app_audio_sessions` (lines 283-340): creates
its own enumerator (inside the caller's COM bracket) and toggles every
matching session. -/
def try_restart_app_audio_sessions (env : OsEnv) (pid : Nat) : Except String Unit :=
  match env.createEnum with
  | some e => .error e
  | none =>
    match env.renderDevices with
    | .error e => .error e
    | .ok devs => restart_sessions_devs env pid devs

/-- Embedding of `try_set_app_default_device` (lines 265-280). -/
def try_set_app_default_device (env : OsEnv) (pid : Nat) (target_device : MMDev) :
    Except String Unit :=
  match env.endpointId target_device with
  | .error e => .error e
  | .ok _ => try_restart_app_audio_sessions env pid

/-- Embedding of `route_app_to_device` (lines 170-227).  Returns the
command's `Result` together with the number of `CoUninitialize` calls the
invocation issues (the function runs its body in a closure and calls
`CoUninitialize` once after it iff `CoInitializeEx` succeeded). -/
def route_app_to_device (env : OsEnv) (pid : Nat) (device_id : Option String) :
    Except String Unit × Nat :=
  let need_uninit := env.coInitOk
  let result : Except String Unit :=
    match env.createEnum with
    | some e => .error e
    | none =>
      match resolve_target_device env device_id with
      | .error e => .error e
      | .ok target_device =>
        match env.endpointId target_device with
        | .error e => .error e
        | .ok device_endpoint_id =>
          match find_and_log_app_session env pid with
          | .error e => .error e
          | .ok session_found =>
            if session_found then
              match route_app_using_policy pid device_endpoint_id with
              | .ok _ => .ok ()
              | .error _ => try_set_app_default_device env pid target_device
            else .error ("No audio session found for PID " ++ natToString pid)
  (result, if need_uninit then 1 else 0)

/-! ## Volume controller (source lines 612-678) -/

/-- Session scan of one device in `apply_volume_to_pid`: `some (r, u)` = the
loop decides with result `r` after issuing `u` `CoUninitialize` calls,
`none` = no matching session on this device, keep searching.  On the
matching session the source sets the clamped volume and — before its early
`return Ok(true)` out of the closure — calls `CoUninitialize` itself when
initialization succeeded. -/
def apply_volume_in (need_uninit : Bool) (pid : Nat) (volume : ℚ) :
    List SessionProbe → Option (Except String Bool × Nat)
  | [] => none
  | probe :: rest =>
    match probe.pidQ with
    | .error e => some (.error e, 0)
    | .ok p =>
      if p = pid then
        match probe.setVolQ (rustClamp volume) with
        | .error e => some (.error e, 0)
        | .ok _ => some (.ok true, if need_uninit then 1 else 0)
      else apply_volume_in need_uninit pid volume rest

/-- Device scan of `apply_volume_to_pid`. -/
def apply_volume_devs (env : OsEnv) (need_uninit : Bool) (pid : Nat) (volume : ℚ) :
    List MMDev → Except String Bool × Nat
  | [] => (.ok false, 0)
  | d :: rest =>
    match env.sessions d with
    | .error e => (.error e, 0)
    | .ok probes =>
      match apply_volume_in need_uninit pid volume probes with
      | some r => r
      | none => apply_volume_devs env need_uninit pid volume rest

/-- Embedding of `apply_volume_to_pid` (lines 618-678).  Returns the
`Result` and the total number of `CoUninitialize` calls: those issued
inside the closure (the early-return path) plus the unconditional one after
the closure. -/
def apply_volume_to_pid (env : OsEnv) (pid : Nat) (volume : ℚ) :
    Except String Bool × Nat :=
  let need_uninit := env.coInitOk
  let inner : Except String Bool × Nat :=
    match env.createEnum with
    | some e => (.error e, 0)
    | none =>
      match env.renderDevices with
      | .error e => (.error e, 0)
      | .ok devs => apply_volume_devs env need_uninit pid volume devs
  (inner.1, inner.2 + (if need_uninit then 1 else 0))

/-- Embedding of the `set_app_volume` command (lines 612-615). -/
def set_app_volume (env : OsEnv) (pid : Nat) (volume : ℚ) : Except String Bool × Nat :=
  apply_volume_to_pid env pid volume

/-! ## Session directory (source lines 487-570, `list_audio_apps`) -/

/-- The `AppSession` record built for a retained session (lines 559-561):
`process_name_from_pid` is the process resolver; when it fails the source
falls back to `"PID <n>"` for the display name and `"unknown_process_<n>.exe"`
for the executable name. -/
def mk_app_session (resolver : Nat → Option String) (pid : Nat) (volume : ℚ) (muted : Bool) :
    AppSession :=
  { pid := pid
    name := (resolver pid).getD ("PID " ++ natToString pid)
    process_name := (resolver pid).getD ("unknown_process_" ++ natToString pid ++ ".exe")
    volume := volume
    muted := muted }

/-- Session loop of `list_audio_apps` over one device, threading the `seen`
pid set.  Every session's pid is queried (failure aborts); pid 0 and
already-seen pids are skipped before any further query; retained sessions
query volume and mute (failure aborts) and are appended in order. -/
def laa_sessions (resolver : Nat → Option String) :
    List SessionProbe → List Nat → Except String (List Nat × List AppSession)
  | [], seen => .ok (seen, [])
  | probe :: rest, seen =>
    match probe.pidQ with
    | .error e => .error e
    | .ok pid =>
      if pid = 0 ∨ pid ∈ seen then laa_sessions resolver rest seen
      else
        match probe.volQ with
        | .error e => .error e
        | .ok volume =>
          match probe.muteQ with
          | .error e => .error e
          | .ok muted =>
            match laa_sessions resolver rest (pid :: seen) with
            | .error e => .error e
            | .ok (seen', out) => .ok (seen', mk_app_session resolver pid volume muted :: out)

/-- Device loop of `list_audio_apps`: device-level activation/enumeration
failures abort the whole call. -/
def laa_devs (env : OsEnv) (resolver : Nat → Option String) :
    List MMDev → List Nat → Except String (List Nat × List AppSession)
  | [], seen => .ok (seen, [])
  | d :: rest, seen =>
    match env.sessions d with
    | .error e => .error e
    | .ok probes =>
      match laa_sessions resolver probes seen with
      | .error e => .error e
      | .ok (seen1, out1) =>
        match laa_devs env resolver rest seen1 with
        | .error e => .error e
        | .ok (seen2, out2) => .ok (seen2, out1 ++ out2)

/-- Embedding of the `list_audio_apps` command (lines 501-570), with its
`CoUninitialize` count. -/
def list_audio_apps (env : OsEnv) (resolver : Nat → Option String) :
    Except String (List AppSession) × Nat :=
  let need_uninit := env.coInitOk
  let result : Except String (List AppSession) :=
    match env.createEnum with
    | some e => .error e
    | none =>
      match env.renderDevices with
      | .error e => .error e
      | .ok devs =>
        match laa_devs env resolver devs [] with
        | .error e => .error e
        | .ok (_, out) => .ok out
  (result, if need_uninit then 1 else 0)

/-! ## Routing-table and state commands (source lines 135-167, 572-610, 680-708)

Each Tauri command mutates the mutex-guarded `MixerState`, persists a
snapshot, performs OS side effects and returns a value.  The embedding
returns all observable outcomes in one record: the new logical state, what
was written to the state file (`persisted`), the OS side effects attempted,
and the command's return value. -/

/-- Observable outcome of `get_routes` (lines 135-144): the `BTreeMap`
returned to the UI, modelled by its lookup function. -/
def get_routes (s : MixerState) : StreamId → Option (Option String) :=
  fun stream => lookupA s.routes stream

/-- Observable outcome of `get_app_categories` (lines 572-581), modelled by
its lookup function. -/
def get_app_categories (s : MixerState) : Nat → Option StreamId :=
  fun pid => lookupA s.app_categories pid

deriving instance DecidableEq for Except

/-- Outcome of the `set_route` command. -/
structure SetRouteOut where
  state : MixerState
  persisted : PersistedState
  /-- the per-pid rerouting attempts (pid, result of `route_app_to_device`),
  in category-map order. -/
  attempts : List (Nat × Except String Unit)
  result : Bool
deriving DecidableEq

/-- Embedding of `set_route` (lines 146-167): store the route, persist, then
best-effort re-route every pid currently assigned to the stream, logging but
ignoring per-pid errors, and return `true`. -/
def set_route (env : OsEnv) (stream : StreamId) (device_id : Option String)
    (s : MixerState) : SetRouteOut :=
  let s' := { s with routes := insertA stream device_id s.routes }
  let persisted := save_state_snapshot s'
  let attempts :=
    (s'.app_categories.filter fun kv => kv.2 == stream).map
      fun kv => (kv.1, (route_app_to_device env kv.1 device_id).1)
  { state := s', persisted := persisted, attempts := attempts, result := true }

/-- Outcome of the `set_app_category` command. -/
structure SetCategoryOut where
  state : MixerState
  persisted : PersistedState
  /-- result of the immediate reroute of this one pid (logged, ignored). -/
  routeResult : Except String Unit
  result : Bool
deriving DecidableEq

/-- Embedding of `set_app_category` (lines 583-600): record pid → stream,
persist, then reroute that pid to the stream's configured device
(`routes.get(&stream).cloned().flatten()`), ignoring the outcome, and
return `true`. -/
def set_app_category (env : OsEnv) (pid : Nat) (stream : StreamId) (s : MixerState) :
    SetCategoryOut :=
  let s' := { s with app_categories := insertA pid stream s.app_categories }
  let persisted := save_state_snapshot s'
  let device_id := (lookupA s'.routes stream).join
  let routeResult := (route_app_to_device env pid device_id).1
  { state := s', persisted := persisted, routeResult := routeResult, result := true }

/-- Outcome of the `clear_app_category` command: `persisted = none` means no
snapshot was written. -/
structure ClearCategoryOut where
  state : MixerState
  persisted : Option PersistedState
  result : Bool
deriving DecidableEq

/-- Embedding of `clear_app_category` (lines 602-610): remove the pid's
binding; persist and return `true` only if something was removed. -/
def clear_app_category (pid : Nat) (s : MixerState) : ClearCategoryOut :=
  let removed := (lookupA s.app_categories pid).isSome
  let s' := { s with app_categories := eraseA pid s.app_categories }
  { state := s'
    persisted := if removed then some (save_state_snapshot s') else none
    result := removed }

/-- Outcome of the `set_stream_volume` command. -/
structure SetStreamVolumeOut where
  state : MixerState
  persisted : PersistedState
  /-- the volume applications attempted: (pid, value passed, result of
  `apply_volume_to_pid`), in category-map order; results are ignored. -/
  applications : List (Nat × ℚ × Except String Bool)
  result : Bool

/-- Embedding of `set_stream_volume` (lines 680-708): clamp, store in the
volume table, apply the clamped value to every pid assigned to the stream
ignoring per-pid failures, persist, and return `true`. -/
def set_stream_volume (env : OsEnv) (stream : StreamId) (volume : ℚ) (s : MixerState) :
    SetStreamVolumeOut :=
  let vol := rustClamp volume
  let s' := { s with volumes := insertA stream vol s.volumes }
  let pids_to_update :=
    (s'.app_categories.filter fun kv => kv.2 == stream).map fun kv => kv.1
  let applications :=
    pids_to_update.map fun pid => (pid, vol, (apply_volume_to_pid env pid vol).1)
  let persisted := save_state_snapshot s'
  { state := s', persisted := persisted, applications := applications, result := true }

/-! ## Auxiliary lemmas and concrete environments for the verification -/

theorem mem_iff_lookupA {κ ν : Type} [DecidableEq κ] {m : List (κ × ν)} (h : KeysNodup m)
    (k : κ) (v : ν) : (k, v) ∈ m ↔ lookupA m k = some v := by
  induction m with
  | nil => simp
  | cons hd tl ih =>
    obtain ⟨k', v'⟩ := hd
    unfold KeysNodup at h
    simp only [List.map_cons, List.nodup_cons] at h
    by_cases hk : k' = k
    · subst hk
      simp only [List.mem_cons, lookupA, eq_self_iff_true, ite_true, Option.some.injEq,
        Prod.mk.injEq, true_and]
      constructor
      · rintro (rfl | hmem)
        · rfl
        · exact absurd (List.mem_map_of_mem Prod.fst hmem) h.1
      · rintro rfl
        exact Or.inl rfl
    · simp only [List.mem_cons, lookupA, if_neg hk, Prod.mk.injEq]
      rw [← ih h.2]
      constructor
      · rintro (⟨h1, -⟩ | hmem)
        · exact absurd h1.symm hk
        · exact hmem
      · exact Or.inr

/-- An OS in which a single process (pid 42) has one audio session on one
render endpoint and every query succeeds. -/
def osEnvOneSession : OsEnv :=
  { coInitOk := true
    createEnum := none
    defaultDevice := .ok ⟨"Spk", 0⟩
    renderDevices := .ok [⟨"Spk", 0⟩]
    endpointId := fun _ => .ok "epid"
    sessions := fun _ =>
      .ok [{ pidQ := .ok 42, volQ := .ok 1, muteQ := .ok false
             setVolQ := fun _ => .ok (), disconnectQ := .ok () }] }

/-- An OS with a working audio subsystem but no live session at all. -/
def osEnvNoSession : OsEnv :=
  { coInitOk := true
    createEnum := none
    defaultDevice := .ok ⟨"Default", 0⟩
    renderDevices := .ok []
    endpointId := fun _ => .ok "epid"
    sessions := fun _ => .ok [] }

/-! ## Claim theorems -/

/-- C1: saving a state snapshot and loading it back on a fresh engine start
reproduces exactly the routes, volumes and app categories that were saved
(`load_state`/`save_state_snapshot` touch only the persisted document —
no OS session input appears in either — so the result is independent of the
live session list), and `get_routes` / `get_app_categories` on the reloaded
state return the prior values. -/
theorem save_load_roundtrip (s : MixerState) :
    load_state (some (save_state_snapshot s)) some = s
    ∧ get_routes (load_state (some (save_state_snapshot s)) some) = get_routes s
    ∧ get_app_categories (load_state (some (save_state_snapshot s)) some) =
        get_app_categories s
    ∧ (load_state (some (save_state_snapshot s)) some).volumes = s.volumes :=
  ⟨rfl, rfl, rfl, rfl⟩

/-- C9: a missing state file (failed read) or a corrupt one (failed parse)
makes `load_state` return `MixerState::default()` — all three tables empty —
and `load_state` is a total function: startup (`main` manages
`Mutex::new(load_state())`) cannot fail because of the state file. -/
theorem load_state_defaults {α : Type} (parse : α → Option PersistedState) :
    load_state none parse = MixerState.empty
    ∧ (∀ d : α, parse d = none → load_state (some d) parse = MixerState.empty)
    ∧ MixerState.empty.routes = []
    ∧ MixerState.empty.volumes = []
    ∧ MixerState.empty.app_categories = [] := by
  refine ⟨rfl, ?_, rfl, rfl, rfl⟩
  intro d h
  simp [load_state, h]

/-- Witness for C9 at a concrete corrupt document. -/
theorem load_state_defaults_witness :
    load_state none (fun _ : PersistedState => none) = MixerState.empty
    ∧ load_state (some (save_state_snapshot MixerState.empty))
        (fun _ : PersistedState => none) = MixerState.empty :=
  ⟨(load_state_defaults _).1,
   (load_state_defaults (fun _ : PersistedState => none)).2.1 _ rfl⟩

/-- C7: clearing the category of a pid that has no category returns `false`,
writes no snapshot, and leaves the state (routes, volumes, categories)
unchanged. -/
theorem clear_absent_category_noop (pid : Nat) (s : MixerState)
    (h : lookupA s.app_categories pid = none) :
    clear_app_category pid s = { state := s, persisted := none, result := false } := by
  unfold clear_app_category
  simp [h, eraseA_of_lookupA_none h]

/-- Witness for C7 at a concrete state without pid 5. -/
theorem clear_absent_category_noop_witness :
    lookupA MixerState.empty.app_categories 5 = none
    ∧ clear_app_category 5 MixerState.empty =
        { state := MixerState.empty, persisted := none, result := false } :=
  ⟨rfl, clear_absent_category_noop 5 MixerState.empty rfl⟩

/-- C5: `set_route(s, d)` then `get_routes()` returns `d` for `s`;
`set_app_category(p, s)` then `get_app_categories()` maps `p` to `s`; a
subsequent `clear_app_category(p)` removes `p` from the returned
categories.  (`KeysNodup` records that a real `HashMap` holds at most one
binding per key.) -/
theorem get_set_roundtrip (env : OsEnv) (s : MixerState) (stream : StreamId)
    (d : Option String) (pid : Nat) (cat : StreamId)
    (h : KeysNodup s.app_categories) :
    get_routes (set_route env stream d s).state stream = some d
    ∧ get_app_categories (set_app_category env pid cat s).state pid = some cat
    ∧ get_app_categories
        (clear_app_category pid (set_app_category env pid cat s).state).state pid = none := by
  refine ⟨?_, ?_, ?_⟩
  · simp [get_routes, set_route, lookupA_insertA_self]
  · simp [get_app_categories, set_app_category, lookupA_insertA_self]
  · simp only [get_app_categories, clear_app_category, set_app_category]
    exact lookupA_eraseA_self (keysNodup_insertA pid cat h)

/-- Witness for C5 at a concrete state and environment. -/
theorem get_set_roundtrip_witness :
    KeysNodup MixerState.empty.app_categories
    ∧ get_routes (set_route osEnvNoSession .Music (some "Speakers::Output#1")
        MixerState.empty).state .Music = some (some "Speakers::Output#1")
    ∧ get_app_categories (set_app_category osEnvNoSession 1234 .Voice
        MixerState.empty).state 1234 = some .Voice
    ∧ get_app_categories (clear_app_category 1234 (set_app_category osEnvNoSession 1234 .Voice
        MixerState.empty).state).state 1234 = none := by
  have h := get_set_roundtrip osEnvNoSession MixerState.empty .Music
    (some "Speakers::Output#1") 1234 .Voice (by decide)
  exact ⟨by decide, h.1, h.2.1, h.2.2⟩

/-- C3: `set_route` stores the route, persists a snapshot of the new state,
attempts to re-route exactly the pids currently categorized under the
stream, and returns `true` for **every** OS environment — i.e. also when
rerouting fails for some or all pids; `set_app_category` likewise records
`p → s`, persists, and returns `true` for every environment, including one
in which `p` has no live audio session. -/
theorem commands_swallow_reroute_errors (env : OsEnv) (stream : StreamId)
    (d : Option String) (pid : Nat) (cat : StreamId) (s : MixerState) :
    (set_route env stream d s).result = true
    ∧ (set_route env stream d s).state.routes = insertA stream d s.routes
    ∧ (set_route env stream d s).persisted =
        save_state_snapshot (set_route env stream d s).state
    ∧ (KeysNodup s.app_categories →
        ∀ p, (∃ r, (p, r) ∈ (set_route env stream d s).attempts) ↔
          lookupA s.app_categories p = some stream)
    ∧ (set_app_category env pid cat s).result = true
    ∧ (set_app_category env pid cat s).state.app_categories = insertA pid cat s.app_categories
    ∧ (set_app_category env pid cat s).persisted =
        save_state_snapshot (set_app_category env pid cat s).state := by
  refine ⟨rfl, rfl, rfl, ?_, rfl, rfl, rfl⟩
  intro hnd p
  constructor
  · rintro ⟨r, hr⟩
    simp only [set_route, List.mem_map, List.mem_filter] at hr
    obtain ⟨⟨q, w⟩, ⟨hmem, hw⟩, heq⟩ := hr
    cases heq
    have hws : w = stream := by simpa using hw
    subst hws
    exact (mem_iff_lookupA hnd q w).1 hmem
  · intro hl
    have hmem : (p, stream) ∈ s.app_categories := (mem_iff_lookupA hnd p stream).2 hl
    refine ⟨(route_app_to_device env p d).1, ?_⟩
    simp only [set_route, List.mem_map, List.mem_filter]
    exact ⟨(p, stream), ⟨hmem, by simp⟩, rfl⟩

/-- A state with one categorized process: pid 7 → Music. -/
def stateCat7 : MixerState :=
  { routes := [], volumes := [], app_categories := [(7, .Music)] }

/-- Witness for C3: on an OS with no live session, `set_route` still reports
`true` and attempts pid 7 (the only pid categorized under Music), and
`set_app_category 1234 Voice` reports `true` while its reroute attempt
came back "No audio session found". -/
theorem commands_swallow_reroute_errors_witness :
    (set_route osEnvNoSession .Music (some "Speakers::Output#0") stateCat7).result = true
    ∧ ((∃ r, (7, r) ∈ (set_route osEnvNoSession .Music (some "Speakers::Output#0")
          stateCat7).attempts) ↔ lookupA stateCat7.app_categories 7 = some .Music)
    ∧ (set_app_category osEnvNoSession 1234 .Voice stateCat7).result = true
    ∧ (set_app_category osEnvNoSession 1234 .Voice stateCat7).routeResult =
        .error "No audio session found for PID 1234" := by
  have h := commands_swallow_reroute_errors osEnvNoSession .Music
    (some "Speakers::Output#0") 1234 .Voice stateCat7
  exact ⟨h.1, h.2.2.2.1 (by decide) 7, h.2.2.2.2.1, by decide⟩

/-- C6: `set_stream_volume` clamps the volume into `[0, 1]`, stores the
clamped value in the volume table, persists a snapshot of the new state,
applies exactly the clamped value to exactly the pids currently categorized
under the stream, and returns `true`; the logical outcome (state, snapshot,
return value) is the same for every OS environment — per-pid application
failures (e.g. a stale category entry for an exited process) are ignored. -/
theorem set_stream_volume_spec (env : OsEnv) (stream : StreamId) (v : ℚ) (s : MixerState) :
    (set_stream_volume env stream v s).result = true
    ∧ 0 ≤ rustClamp v
    ∧ rustClamp v ≤ 1
    ∧ lookupA (set_stream_volume env stream v s).state.volumes stream = some (rustClamp v)
    ∧ (set_stream_volume env stream v s).persisted =
        save_state_snapshot (set_stream_volume env stream v s).state
    ∧ (∀ p w r, (p, w, r) ∈ (set_stream_volume env stream v s).applications →
        w = rustClamp v)
    ∧ (KeysNodup s.app_categories →
        ∀ p, (∃ w r, (p, w, r) ∈ (set_stream_volume env stream v s).applications) ↔
          lookupA s.app_categories p = some stream)
    ∧ (∀ env' : OsEnv,
        (set_stream_volume env' stream v s).state = (set_stream_volume env stream v s).state
        ∧ (set_stream_volume env' stream v s).persisted =
            (set_stream_volume env stream v s).persisted
        ∧ (set_stream_volume env' stream v s).result =
            (set_stream_volume env stream v s).result) := by
  refine ⟨rfl, ?_, ?_, ?_, rfl, ?_, ?_, fun env' => ⟨rfl, rfl, rfl⟩⟩
  · unfold rustClamp
    split_ifs <;> linarith
  · unfold rustClamp
    split_ifs <;> linarith
  · simp [set_stream_volume, lookupA_insertA_self]
  · intro p w r hmem
    simp only [set_stream_volume, List.mem_map] at hmem
    obtain ⟨q, -, heq⟩ := hmem
    cases heq
    rfl
  · intro hnd p
    constructor
    · rintro ⟨w, r, hr⟩
      simp only [set_stream_volume, List.mem_map, List.mem_filter] at hr
      obtain ⟨q, ⟨⟨q', w'⟩, ⟨hmem, hw⟩, hq⟩, heq⟩ := hr
      cases heq
      cases hq
      have hws : w' = stream := by simpa using hw
      subst hws
      exact (mem_iff_lookupA hnd q' w').1 hmem
    · intro hl
      have hmem : (p, stream) ∈ s.app_categories := (mem_iff_lookupA hnd p stream).2 hl
      refine ⟨rustClamp v, (apply_volume_to_pid env p (rustClamp v)).1, ?_⟩
      simp only [set_stream_volume, List.mem_map, List.mem_filter]
      exact ⟨p, ⟨(p, stream), ⟨hmem, by simp⟩, rfl⟩, rfl⟩

/-- Witness for C6: volume 2 is clamped to 1, stored, and applied to pid 7
(the only pid under Music) even though the OS reports no live session. -/
theorem set_stream_volume_spec_witness :
    (set_stream_volume osEnvNoSession .Music 2 stateCat7).result = true
    ∧ lookupA (set_stream_volume osEnvNoSession .Music 2 stateCat7).state.volumes .Music =
        some (rustClamp 2)
    ∧ rustClamp 2 = 1
    ∧ ((∃ w r, (7, w, r) ∈ (set_stream_volume osEnvNoSession .Music 2
          stateCat7).applications) ↔ lookupA stateCat7.app_categories 7 = some .Music) := by
  have h := set_stream_volume_spec osEnvNoSession .Music 2 stateCat7
  exact ⟨h.1, h.2.2.2.1, by decide, h.2.2.2.2.2.2.1 (by decide) 7⟩

/-- C2 counterexample: with three active output devices `HDMI`, `Speakers`,
`Speakers` (in enumeration order), `list_audio_devices` assigns the two
same-named Speakers the ids `Speakers::Output#0` and `Speakers::Output#1`
(differing only in disambiguation index), yet `find_device_by_id` resolves
`Speakers::Output#1` (in either capitalization) to the device at **position
1 of the collection** — the *first* Speakers device (tag 1), not the second
(tag 2): the embedded number is used as a collection index, not matched
against the per-name disambiguation index. -/
theorem find_device_by_id_disambiguation_cex :
    (list_audio_devices "HDMI"
        [⟨some "HDMI", true⟩, ⟨some "Speakers", true⟩, ⟨some "Speakers", true⟩]).map
        DeviceInfo.id =
      ["HDMI::Output#0", "Speakers::Output#0", "Speakers::Output#1"]
    ∧ find_device_by_id [⟨"HDMI", 0⟩, ⟨"Speakers", 1⟩, ⟨"Speakers", 2⟩]
        "Speakers::Output#1" = .ok ⟨"Speakers", 1⟩
    ∧ find_device_by_id [⟨"HDMI", 0⟩, ⟨"Speakers", 1⟩, ⟨"Speakers", 2⟩]
        "Speakers::output#1" = .ok ⟨"Speakers", 1⟩
    ∧ (⟨"Speakers", 1⟩ : MMDev) ≠ ⟨"Speakers", 2⟩ :=
  ⟨by decide, by decide, by decide, by decide⟩

/-- C2 (amended): the trailing `#index` of an explicit device id is parsed
and used as a 0-based **position** into the enumerated output-device
collection (with a substring fallback against placeholder names); hence
when the enumerated collection consists of exactly the two same-named
devices in id order, `Speakers::Output#1` resolves to the second of them;
and a device id of `None` resolves to the system default output endpoint
(`GetDefaultAudioEndpoint`). -/
theorem find_device_by_id_resolution :
    (∀ (devices : List MMDev) (id : String) (part : List Char) (t : Int) (d : MMDev),
        (splitOnChar '#' id.data).getLast? = some part →
        parseI32 part = some t →
        0 ≤ t →
        t < (devices.length : Int) →
        devices.get? t.toNat = some d →
        find_device_by_id devices id = .ok d)
    ∧ (∀ d0 d1 : MMDev, find_device_by_id [d0, d1] "Speakers::Output#1" = .ok d1)
    ∧ (∀ env : OsEnv, resolve_target_device env none = env.defaultDevice) := by
  refine ⟨?_, fun d0 d1 => rfl, fun env => rfl⟩
  intro devices id part t d hpart hparse h0 hlt hget
  simp only [find_device_by_id, hpart, hparse, h0, hlt, and_self, if_true, ite_true,
    hget, true_and]

/-- Witness for the amended C2 at concrete device collections. -/
theorem find_device_by_id_resolution_witness :
    find_device_by_id [⟨"A", 0⟩, ⟨"B", 1⟩, ⟨"C", 2⟩] "X::Output#2" = .ok ⟨"C", 2⟩
    ∧ find_device_by_id [⟨"Speakers", 10⟩, ⟨"Speakers", 20⟩] "Speakers::Output#1" =
        .ok ⟨"Speakers", 20⟩
    ∧ resolve_target_device osEnvNoSession none = .ok ⟨"Default", 0⟩ := by
  refine ⟨?_, ?_, ?_⟩
  · exact find_device_by_id_resolution.1 [⟨"A", 0⟩, ⟨"B", 1⟩, ⟨"C", 2⟩] "X::Output#2"
      "2".data 2 ⟨"C", 2⟩ rfl rfl (by decide) (by decide) rfl
  · exact find_device_by_id_resolution.2.1 ⟨"Speakers", 10⟩ ⟨"Speakers", 20⟩
  · exact (find_device_by_id_resolution.2.2 osEnvNoSession).trans rfl

/-- The only error `find_device_by_id`'s fallback loop produces is the
"Device not found" message for the requested id. -/
theorem find_device_by_id_fallback_error (id : String) :
    ∀ (devs : List MMDev) (di : Nat) (e : String),
      find_device_by_id_fallback id devs di = .error e → e = "Device not found: " ++ id := by
  intro devs
  induction devs with
  | nil =>
    intro di e h
    simp only [find_device_by_id_fallback, Except.error.injEq] at h
    exact h.symm
  | cons d rest ih =>
    intro di e h
    simp only [find_device_by_id_fallback] at h
    by_cases hc : strContains id ("Device_" ++ natToString di) = true
    · simp [hc] at h
    · simp only [hc, if_false, Bool.false_eq_true] at h
      exact ih (di + 1) e h

/-- The two first characters of the router's two "entity not found" error
messages differ, so the messages are never equal, whatever the id and pid. -/
theorem device_not_found_msg_ne (id : String) (pid : Nat) :
    "Device not found: " ++ id ≠ "No audio session found for PID " ++ natToString pid := by
  intro h
  have h2 := congrArg String.data h
  rw [String.data_append, String.data_append] at h2
  have e1 : "Device not found: ".data = 'D' :: "evice not found: ".data := rfl
  have e2 : "No audio session found for PID ".data =
      'N' :: "o audio session found for PID ".data := rfl
  rw [e1, e2] at h2
  simp only [List.cons_append, List.cons.injEq] at h2
  exact absurd h2.1 (by decide)

/-- C4: an unresolvable device id and "no live session for this pid" are
distinct, distinguishable outcomes of the router: (1) a device-resolution
error is returned unchanged by `route_app_to_device`; (2) every resolution
failure carries exactly the message `"Device not found: <id>"`; (3) a
working subsystem with no session for the pid yields exactly
`"No audio session found for PID <pid>"`; and (4) the two messages are
never equal, so the caller can always tell them apart. -/
theorem routing_error_taxonomy :
    (∀ (env : OsEnv) (pid : Nat) (id : String) (e : String),
        env.createEnum = none →
        resolve_target_device env (some id) = .error e →
        (route_app_to_device env pid (some id)).1 = .error e)
    ∧ (∀ (devices : List MMDev) (id e : String),
        find_device_by_id devices id = .error e → e = "Device not found: " ++ id)
    ∧ (∀ (env : OsEnv) (pid : Nat) (did : Option String) (d : MMDev) (epid : String),
        env.createEnum = none →
        resolve_target_device env did = .ok d →
        env.endpointId d = .ok epid →
        find_and_log_app_session env pid = .ok false →
        (route_app_to_device env pid did).1 =
          .error ("No audio session found for PID " ++ natToString pid))
    ∧ (∀ (id : String) (pid : Nat),
        "Device not found: " ++ id ≠ "No audio session found for PID " ++ natToString pid) := by
  refine ⟨?_, ?_, ?_, device_not_found_msg_ne⟩
  · intro env pid id e hce hres
    simp [route_app_to_device, hce, hres]
  · intro devices id e h
    simp only [find_device_by_id] at h
    split at h
    · exact absurd h (by simp)
    · exact find_device_by_id_fallback_error id devices 0 e h
  · intro env pid did d epid hce hres hep hfind
    simp [route_app_to_device, hce, hres, hep, hfind]

/-- Witness for C4 at concrete environments: a bad id on a live system, and
a good default route on a session-less system. -/
theorem routing_error_taxonomy_witness :
    (route_app_to_device osEnvOneSession 7 (some "Nope")).1 =
      .error "Device not found: Nope"
    ∧ (route_app_to_device osEnvNoSession 7 none).1 =
        .error "No audio session found for PID 7"
    ∧ "Device not found: Nope" ≠ "No audio session found for PID 7" := by
  refine ⟨?_, ?_, ?_⟩
  · exact routing_error_taxonomy.1 osEnvOneSession 7 "Nope" "Device not found: Nope" rfl
      (by decide)
  · have h := routing_error_taxonomy.2.2.1 osEnvNoSession 7 none ⟨"Default", 0⟩ "epid" rfl
      (by decide) rfl rfl
    rwa [show ("No audio session found for PID " ++ natToString 7) =
      "No audio session found for PID 7" from by decide] at h
  · have h := routing_error_taxonomy.2.2.2 "Nope" 7
    rwa [show ("Device not found: " ++ "Nope") = "Device not found: Nope" from by decide,
      show ("No audio session found for PID " ++ natToString 7) =
        "No audio session found for PID 7" from by decide] at h

/-- C10: `route_app_to_device` and `list_audio_apps` release the per-call
COM environment exactly once on every path iff `CoInitializeEx` succeeded —
but `apply_volume_to_pid` does **not**: on the early-return path taken when
a matching session is found and its volume is set (here: pid 42 on
`osEnvOneSession`, whose `CoInitializeEx` succeeds), the source calls
`CoUninitialize` inside the closure (line 668) *and again* after the
closure (line 675), for a total of two teardowns of one initialization;
on the no-match path the count is the correct one. -/
theorem com_env_bracketing :
    (∀ (env : OsEnv) (pid : Nat) (did : Option String),
        (route_app_to_device env pid did).2 = if env.coInitOk then 1 else 0)
    ∧ (∀ (env : OsEnv) (resolver : Nat → Option String),
        (list_audio_apps env resolver).2 = if env.coInitOk then 1 else 0)
    ∧ osEnvOneSession.coInitOk = true
    ∧ apply_volume_to_pid osEnvOneSession 42 1 = (.ok true, 2)
    ∧ apply_volume_to_pid osEnvOneSession 7 1 = (.ok false, 1) :=
  ⟨fun _ _ _ => rfl, fun _ _ => rfl, rfl, rfl, rfl⟩

/-- Invariants of the session loop of `list_audio_apps` on a successful
pass: `seen` only grows; every emitted entry has a nonzero pid that was not
seen before the loop and is seen after it; emitted pids are distinct; names
follow the resolver with the source's fallbacks; and every scanned
session's pid query succeeded. -/
theorem laa_sessions_ok (resolver : Nat → Option String) :
    ∀ (probes : List SessionProbe) (seen seen' : List Nat) (out : List AppSession),
      laa_sessions resolver probes seen = .ok (seen', out) →
      (∀ p ∈ seen, p ∈ seen')
      ∧ (∀ a ∈ out, a.pid ≠ 0 ∧ a.pid ∉ seen ∧ a.pid ∈ seen')
      ∧ (out.map AppSession.pid).Nodup
      ∧ (∀ a ∈ out,
          a.name = (resolver a.pid).getD ("PID " ++ natToString a.pid)
          ∧ a.process_name =
            (resolver a.pid).getD ("unknown_process_" ++ natToString a.pid ++ ".exe"))
      ∧ (∀ probe ∈ probes, ∃ p, probe.pidQ = .ok p) := by
  intro probes
  induction probes with
  | nil =>
    intro seen seen' out h
    simp only [laa_sessions, Except.ok.injEq, Prod.mk.injEq] at h
    obtain ⟨rfl, rfl⟩ := h
    exact ⟨fun p hp => hp, by simp, by simp, by simp, by simp⟩
  | cons probe rest ih =>
    intro seen seen' out h
    rcases hpq : probe.pidQ with e | pid
    · rw [show laa_sessions resolver (probe :: rest) seen = .error e from by
        simp [laa_sessions, hpq]] at h
      cases h
    · by_cases hskip : pid = 0 ∨ pid ∈ seen
      · rw [show laa_sessions resolver (probe :: rest) seen = laa_sessions resolver rest seen
          from by simp [laa_sessions, hpq, hskip]] at h
        obtain ⟨hseen, hout, hnd, hnames, hprobes⟩ := ih seen seen' out h
        refine ⟨hseen, hout, hnd, hnames, ?_⟩
        intro q hq
        rcases List.mem_cons.1 hq with rfl | hq'
        · exact ⟨pid, hpq⟩
        · exact hprobes q hq'
      · rcases hv : probe.volQ with ev | vol
        · rw [show laa_sessions resolver (probe :: rest) seen = .error ev from by
            simp [laa_sessions, hpq, hskip, hv]] at h
          cases h
        · rcases hm : probe.muteQ with em | muv
          · rw [show laa_sessions resolver (probe :: rest) seen = .error em from by
              simp [laa_sessions, hpq, hskip, hm, hv]] at h
            cases h
          · rcases hrec : laa_sessions resolver rest (pid :: seen) with erec | pr
            · rw [show laa_sessions resolver (probe :: rest) seen = .error erec from by
                simp [laa_sessions, hpq, hskip, hv, hm, hrec]] at h
              cases h
            · obtain ⟨seen1, out1⟩ := pr
              rw [show laa_sessions resolver (probe :: rest) seen =
                  .ok (seen1, mk_app_session resolver pid vol muv :: out1) from by
                simp [laa_sessions, hpq, hskip, hv, hm, hrec]] at h
              simp only [Except.ok.injEq, Prod.mk.injEq] at h
              obtain ⟨rfl, rfl⟩ := h
              obtain ⟨ihseen, ihout, ihnd, ihnames, ihprobes⟩ := ih (pid :: seen) seen1 out1 hrec
              push_neg at hskip
              refine ⟨?_, ?_, ?_, ?_, ?_⟩
              · intro p hp
                exact ihseen p (List.mem_cons_of_mem pid hp)
              · intro a ha
                rcases List.mem_cons.1 ha with rfl | ha'
                · exact ⟨hskip.1, hskip.2, ihseen pid (List.mem_cons_self pid seen)⟩
                · obtain ⟨h0, hns, hin⟩ := ihout a ha'
                  exact ⟨h0, fun hc => hns (List.mem_cons_of_mem pid hc), hin⟩
              · simp only [List.map_cons, List.nodup_cons]
                refine ⟨?_, ihnd⟩
                intro hc
                obtain ⟨a, ha, hpa⟩ := List.mem_map.1 hc
                obtain ⟨-, hns, -⟩ := ihout a ha
                exact hns (hpa ▸ List.mem_cons_self pid seen)
              · intro a ha
                rcases List.mem_cons.1 ha with rfl | ha'
                · exact ⟨rfl, rfl⟩
                · exact ihnames a ha'
              · intro q hq
                rcases List.mem_cons.1 hq with rfl | hq'
                · exact ⟨pid, hpq⟩
                · exact ihprobes q hq'

/-- Invariants of the device loop of `list_audio_apps` on a successful
pass, lifting `laa_sessions_ok` across the cross-device `seen` set. -/
theorem laa_devs_ok (env : OsEnv) (resolver : Nat → Option String) :
    ∀ (devs : List MMDev) (seen seen' : List Nat) (out : List AppSession),
      laa_devs env resolver devs seen = .ok (seen', out) →
      (∀ p ∈ seen, p ∈ seen')
      ∧ (∀ a ∈ out, a.pid ≠ 0 ∧ a.pid ∉ seen ∧ a.pid ∈ seen')
      ∧ (out.map AppSession.pid).Nodup
      ∧ (∀ a ∈ out,
          a.name = (resolver a.pid).getD ("PID " ++ natToString a.pid)
          ∧ a.process_name =
            (resolver a.pid).getD ("unknown_process_" ++ natToString a.pid ++ ".exe"))
      ∧ (∀ d ∈ devs, ∃ probes, env.sessions d = .ok probes
          ∧ ∀ probe ∈ probes, ∃ p, probe.pidQ = .ok p) := by
  intro devs
  induction devs with
  | nil =>
    intro seen seen' out h
    simp only [laa_devs, Except.ok.injEq, Prod.mk.injEq] at h
    obtain ⟨rfl, rfl⟩ := h
    exact ⟨fun p hp => hp, by simp, by simp, by simp, by simp⟩
  | cons d rest ih =>
    intro seen seen' out h
    rcases hs : env.sessions d with es | probes
    · rw [show laa_devs env resolver (d :: rest) seen = .error es from by
        simp [laa_devs, hs]] at h
      cases h
    · rcases h1 : laa_sessions resolver probes seen with e1 | pr1
      · rw [show laa_devs env resolver (d :: rest) seen = .error e1 from by
          simp [laa_devs, hs, h1]] at h
        cases h
      · obtain ⟨seen1, out1⟩ := pr1
        rcases h2 : laa_devs env resolver rest seen1 with e2 | pr2
        · rw [show laa_devs env resolver (d :: rest) seen = .error e2 from by
            simp [laa_devs, hs, h1, h2]] at h
          cases h
        · obtain ⟨seen2, out2⟩ := pr2
          rw [show laa_devs env resolver (d :: rest) seen = .ok (seen2, out1 ++ out2) from by
            simp [laa_devs, hs, h1, h2]] at h
          simp only [Except.ok.injEq, Prod.mk.injEq] at h
          obtain ⟨rfl, rfl⟩ := h
          obtain ⟨smono, selem, snd, snames, sprobes⟩ :=
            laa_sessions_ok resolver probes seen seen1 out1 h1
          obtain ⟨dmono, delem, dnd, dnames, ddevs⟩ := ih seen1 seen2 out2 h2
          refine ⟨?_, ?_, ?_, ?_, ?_⟩
          · intro p hp
            exact dmono p (smono p hp)
          · intro a ha
            rcases List.mem_append.1 ha with ha1 | ha2
            · obtain ⟨h0, hns, hin⟩ := selem a ha1
              exact ⟨h0, hns, dmono _ hin⟩
            · obtain ⟨h0, hns, hin⟩ := delem a ha2
              exact ⟨h0, fun hc => hns (smono _ hc), hin⟩
          · rw [List.map_append]
            refine List.Nodup.append snd dnd ?_
            intro x hx1 hx2
            obtain ⟨a, ha, rfl⟩ := List.mem_map.1 hx1
            obtain ⟨b, hb, hab⟩ := List.mem_map.1 hx2
            obtain ⟨-, -, hin⟩ := selem a ha
            obtain ⟨-, hns, -⟩ := delem b hb
            exact hns (hab ▸ hin)
          · intro a ha
            rcases List.mem_append.1 ha with ha1 | ha2
            · exact snames a ha1
            · exact dnames a ha2
          · intro d' hd'
            rcases List.mem_cons.1 hd' with rfl | hd''
            · exact ⟨probes, hs, sprobes⟩
            · exact ddevs d' hd''

/-- C8 counterexample: when process-name resolution fails for pid 42, the
executable-name placeholder produced by `list_audio_apps` is
`"unknown_process_42.exe"` — with an `.exe` suffix the claim's placeholder
`"unknown_process_<n>"` does not have. -/
theorem list_audio_apps_placeholder_cex :
    (list_audio_apps osEnvOneSession (fun _ => none)).1 =
      .ok [{ pid := 42, name := "PID 42", process_name := "unknown_process_42.exe",
             volume := 1, muted := false }]
    ∧ "unknown_process_42.exe" ≠ "unknown_process_42" :=
  ⟨by decide, by decide⟩

/-- C8 (amended): on a successful `list_audio_apps` call every reported
session has a nonzero pid, pids are pairwise distinct (first occurrence
wins — the loop skips a pid already seen, and retains the first), display
and executable names fall back to `"PID <n>"` / `"unknown_process_<n>.exe"`
when the resolver fails (the call itself never fails for that reason), and
a success implies every device enumeration and every session's pid query
succeeded; conversely a failing volume, mute or pid query on a session the
loop reaches (and, for volume/mute, retains) aborts the whole call with
that error — no partial result. -/
theorem list_audio_apps_spec :
    (∀ (env : OsEnv) (resolver : Nat → Option String) (out : List AppSession),
        (list_audio_apps env resolver).1 = .ok out →
        (∀ a ∈ out, a.pid ≠ 0)
        ∧ (out.map AppSession.pid).Nodup
        ∧ (∀ a ∈ out,
            a.name = (resolver a.pid).getD ("PID " ++ natToString a.pid)
            ∧ a.process_name =
              (resolver a.pid).getD ("unknown_process_" ++ natToString a.pid ++ ".exe"))
        ∧ (∀ devs, env.renderDevices = .ok devs →
            ∀ d ∈ devs, ∃ probes, env.sessions d = .ok probes
              ∧ ∀ probe ∈ probes, ∃ p, probe.pidQ = .ok p))
    ∧ (∀ (resolver : Nat → Option String) (probe : SessionProbe) (rest : List SessionProbe)
        (seen : List Nat) (e : String),
        probe.pidQ = .error e →
        laa_sessions resolver (probe :: rest) seen = .error e)
    ∧ (∀ (resolver : Nat → Option String) (probe : SessionProbe) (rest : List SessionProbe)
        (seen : List Nat) (p : Nat) (e : String),
        probe.pidQ = .ok p → ¬(p = 0 ∨ p ∈ seen) → probe.volQ = .error e →
        laa_sessions resolver (probe :: rest) seen = .error e)
    ∧ (∀ (resolver : Nat → Option String) (probe : SessionProbe) (rest : List SessionProbe)
        (seen : List Nat) (p : Nat) (v : ℚ) (e : String),
        probe.pidQ = .ok p → ¬(p = 0 ∨ p ∈ seen) → probe.volQ = .ok v →
        probe.muteQ = .error e →
        laa_sessions resolver (probe :: rest) seen = .error e)
    ∧ (∀ (resolver : Nat → Option String) (probe : SessionProbe) (rest : List SessionProbe)
        (seen : List Nat) (p : Nat),
        probe.pidQ = .ok p → (p = 0 ∨ p ∈ seen) →
        laa_sessions resolver (probe :: rest) seen = laa_sessions resolver rest seen) := by
  refine ⟨?_, ?_, ?_, ?_, ?_⟩
  · intro env resolver out h
    simp only [list_audio_apps] at h
    rcases hce : env.createEnum with - | e
    case some => simp [hce] at h
    rcases hrd : env.renderDevices with erd | devs
    case error => simp [hce, hrd] at h
    rcases hld : laa_devs env resolver devs [] with el | pr
    case error => simp [hce, hrd, hld] at h
    obtain ⟨seenF, outF⟩ := pr
    rw [show (match env.createEnum with
        | some e => Except.error e
        | none =>
          match env.renderDevices with
          | .error e => Except.error e
          | .ok devs =>
            match laa_devs env resolver devs [] with
            | .error e => Except.error e
            | .ok (_, out) => Except.ok out) = Except.ok outF from by
      simp [hce, hrd, hld]] at h
    simp only [Except.ok.injEq] at h
    subst h
    obtain ⟨-, helem, hnd, hnames, hdevs⟩ := laa_devs_ok env resolver devs [] seenF outF hld
    refine ⟨fun a ha => (helem a ha).1, hnd, hnames, ?_⟩
    intro devs' hdevs'
    simp only [Except.ok.injEq] at hdevs'
    subst hdevs'
    exact hdevs
  · intro resolver probe rest seen e hpq
    simp [laa_sessions, hpq]
  · intro resolver probe rest seen p e hpq hskip hv
    simp [laa_sessions, hpq, hskip, hv]
  · intro resolver probe rest seen p v e hpq hskip hv hm
    simp [laa_sessions, hpq, hskip, hv, hm]
  · intro resolver probe rest seen p hpq hskip
    simp [laa_sessions, hpq, hskip]

/-- A session whose volume query fails. -/
def probeBadVol : SessionProbe :=
  { pidQ := .ok 9, volQ := .error "GetMasterVolume failed: E_FAIL", muteQ := .ok false
    setVolQ := fun _ => .ok (), disconnectQ := .ok () }

/-- The session report `list_audio_apps` produces for pid 42 on
`osEnvOneSession` when the process resolver fails. -/
def app42 : AppSession :=
  { pid := 42, name := "PID 42", process_name := "unknown_process_42.exe"
    volume := 1, muted := false }

/-- Witness for the amended C8 at a concrete OS: a successful enumeration
of one session for pid 42 satisfies the success conjuncts, and a session
with a failing volume query aborts the session loop with that error. -/
theorem list_audio_apps_spec_witness :
    ((∀ a ∈ [app42], a.pid ≠ 0) ∧ ([app42].map AppSession.pid).Nodup)
    ∧ laa_sessions (fun _ => none) [probeBadVol] [] =
        .error "GetMasterVolume failed: E_FAIL" := by
  constructor
  · have h := list_audio_apps_spec.1 osEnvOneSession (fun _ => none) [app42] (by decide)
    exact ⟨h.1, h.2.1⟩
  · exact list_audio_apps_spec.2.2.1 (fun _ => none) probeBadVol [] [] 9
      "GetMasterVolume failed: E_FAIL" rfl (by decide) rfl

end AudioMixer
